/-
Verification of the Expected-Loss Quoting Engine
(GPS-PROYECTO-FINAL: quoter.py, features.py, app.py).

Shallow embedding: Python floats are modelled as exact rationals (ℚ),
pandas single-row DataFrames / feature dicts as association lists
`List (String × FeatVal)`, and Python exceptions as `Except PyError`.
The trained PD/LGD scorers, the fitted per-column PowerTransformer
normalizations and `np.log1p` are opaque external collaborators and are
therefore parameters of the embedding (functions carried in the fitted
state / passed explicitly), exactly as the quoting code treats them.
-/
import Mathlib

set_option linter.unusedVariables false

/-- Value stored in a feature record / quote record: a numeric cell, a
string cell, or a missing value (NaN). -/
inductive FeatVal where
  | num : ℚ → FeatVal
  | str : String → FeatVal
  | nan : FeatVal
deriving DecidableEq, Repr

/-- Python exceptions that the embedded code can raise.
`zeroDivisionError` models Python's ZeroDivisionError;
`schemaError` models the error sklearn's ColumnTransformer raises when
required columns are absent from the transform input (the spec's name
for this failure class); `valueError` models a cell-type mismatch. -/
inductive PyError where
  | zeroDivisionError : PyError
  | schemaError : List String → PyError
  | valueError : String → PyError
deriving DecidableEq, Repr

instance {ε α : Type} [DecidableEq ε] [DecidableEq α] : DecidableEq (Except ε α) :=
  fun a b =>
    match a, b with
    | Except.ok x, Except.ok y =>
      if h : x = y then isTrue (by rw [h]) else isFalse (by simp [h])
    | Except.error x, Except.error y =>
      if h : x = y then isTrue (by rw [h]) else isFalse (by simp [h])
    | Except.ok _, Except.error _ => isFalse (by simp)
    | Except.error _, Except.ok _ => isFalse (by simp)

/-- quoter.calculate_nafin_guarantee: tiered guarantee coverage,
80% up to 2,000,000 and 70% above. -/
def calculate_nafin_guarantee (approved_amount : ℚ) : ℚ :=
  if approved_amount ≤ 2000000 then approved_amount * (80 / 100)
  else approved_amount * (70 / 100)

/-- quoter.calculate_monthly_payment: French amortization.  Python
raises ZeroDivisionError when the divisor (`term_months`, or the
annuity denominator) is zero; the embedding returns that error in
exactly those cases. -/
def calculate_monthly_payment (principal annual_rate : ℚ) (term_months : ℕ) :
    Except PyError ℚ :=
  if annual_rate = 0 then
    if term_months = 0 then Except.error PyError.zeroDivisionError
    else Except.ok (principal / (term_months : ℚ))
  else
    let monthly_rate := annual_rate / 100 / 12
    if (1 + monthly_rate) ^ term_months - 1 = 0 then
      Except.error PyError.zeroDivisionError
    else
      Except.ok (principal * (monthly_rate * (1 + monthly_rate) ^ term_months) /
        ((1 + monthly_rate) ^ term_months - 1))

/-- quoter.create_loan_features: the inference-time feature record, with
`log1p` the opaque embedding of `np.log1p`.  Keys and values mirror the
dict literal in the source (order included). -/
def create_loan_features (log1p : ℚ → ℚ) (approved_amount : ℚ)
    (term_months num_employees : ℕ) (is_new_business : Bool)
    (scian_code state_code : String) : List (String × FeatVal) :=
  let nafin_guaranteed := calculate_nafin_guarantee approved_amount
  [("GrAppv", FeatVal.num approved_amount),
   ("NAFIN_Appv", FeatVal.num nafin_guaranteed),
   ("Term", FeatVal.num (term_months : ℚ)),
   ("NoEmp", FeatVal.num (num_employees : ℚ)),
   ("IsNewBusiness", FeatVal.num (if is_new_business then 1 else 0)),
   ("NewExist", FeatVal.num (if is_new_business then 1 else 2)),
   ("SCIAN", FeatVal.str (scian_code.take 2)),
   ("State", FeatVal.str state_code.toUpper),
   ("NAFIN_Portion",
     FeatVal.num (if 0 < approved_amount then nafin_guaranteed / approved_amount else 0)),
   ("Loan_per_Employee", FeatVal.num (approved_amount / ((num_employees : ℚ) + 1))),
   ("Term_Years", FeatVal.num ((term_months : ℚ) / 12)),
   ("Debt_to_NAFIN", FeatVal.num (approved_amount - nafin_guaranteed)),
   ("Log_GrAppv", FeatVal.num (log1p approved_amount)),
   ("HasRealEstate", FeatVal.num 0),
   ("InRecession", FeatVal.num 0),
   ("IsUrban", FeatVal.num 1)]

/-- `df[k] = v` on a single-row frame: overwrite the value at an existing
column, keeping column order. -/
def set_col (X : List (String × FeatVal)) (k : String) (v : FeatVal) :
    List (String × FeatVal) :=
  X.map (fun p => if p.1 = k then (k, v) else p)

/-- The fitted preprocessor (sklearn ColumnTransformer state):
the numeric and categorical column lists it was built with, the fitted
per-column PowerTransformer map (opaque fitted parameters), and the
fitted category list of each categorical column (a category's code is
its position in that list, as in sklearn's `categories_`). -/
structure FittedPreprocessor where
  num_feats : List String
  cat_feats : List String
  num_tf : String → ℚ → ℚ
  categories : String → List FeatVal

/-- Position of `v` in the fitted category list, counting from `k`;
-1 when `v` is not a fitted category. -/
def ordinal_code_from (k : ℚ) (cats : List FeatVal) (v : FeatVal) : ℚ :=
  match cats with
  | [] => -1
  | c :: rest => if v = c then k else ordinal_code_from (k + 1) rest v

/-- sklearn OrdinalEncoder cell transform as configured in
features.create_preprocessor: missing value (NaN) ↦ -2
(`encoded_missing_value`), unseen category ↦ -1 (`unknown_value`),
fitted category ↦ its nonnegative fitted code. -/
def encode_cat (cats : List FeatVal) (v : FeatVal) : ℚ :=
  if v = FeatVal.nan then -2 else ordinal_code_from 0 cats v

/-- Numeric half of the ColumnTransformer: apply the fitted per-column
normalization to each numeric column's cell, in column order. -/
def transform_num (pre : FittedPreprocessor) (X : List (String × FeatVal)) :
    List String → Except PyError (List ℚ)
  | [] => Except.ok []
  | c :: rest =>
    match X.lookup c with
    | some (FeatVal.num q) =>
      match transform_num pre X rest with
      | Except.ok qs => Except.ok (pre.num_tf c q :: qs)
      | Except.error e => Except.error e
    | some _ => Except.error (PyError.valueError c)
    | none => Except.error (PyError.schemaError [c])

/-- features.transform_data: `preprocessor.transform(X)` flattened to the
row vector.  The ColumnTransformer first validates that every fitted
column is present in `X` and raises on the missing ones; on success the
output is the numeric block followed by the categorical block, in the
fitted column order. -/
def transform_data (pre : FittedPreprocessor) (X : List (String × FeatVal)) :
    Except PyError (List ℚ) :=
  let missing := (pre.num_feats ++ pre.cat_feats).filter (fun c => (X.lookup c).isNone)
  if missing.isEmpty then
    match transform_num pre X pre.num_feats with
    | Except.error e => Except.error e
    | Except.ok nums =>
      Except.ok (nums ++ pre.cat_feats.map (fun c =>
        match X.lookup c with
        | some v => encode_cat (pre.categories c) v
        | none => -2))
  else
    Except.error (PyError.schemaError missing)

/-- The numeric column list of features.create_preprocessor.  In the
source, the adjacent string literals `''` and `'Loan_per_Emp'`
concatenate into the single element `'Loan_per_Emp'`, giving these 18
numeric columns. -/
def create_preprocessor_num_feats : List String :=
  ["GrAppv", "NAFIN_Appv", "Debt_to_NAFIN", "Log_GrAppv", "Term", "Term_Years",
   "NoEmp", "NAFIN_Portion", "Loan_per_Emp", "Log_Loan_per_Emp", "HasRealEstate",
   "RealEstate_Exposure", "InRecession", "Bank_Exposure", "Bank_Exposure_Ratio",
   "Loan_Age", "Bank_Frequency", "Bank_Frequency_Log"]

/-- The categorical column list of features.create_preprocessor. -/
def create_preprocessor_cat_feats : List String :=
  ["SCIAN", "State", "Region", "IsNewBusiness", "IsUrban"]

/-- A preprocessor built by features.create_preprocessor and then fitted:
the column lists are fixed by the source; the numeric normalization
parameters and the category lists are produced by fitting (training data
is outside this core), so they are parameters. -/
def create_preprocessor_fitted (num_tf : String → ℚ → ℚ)
    (categories : String → List FeatVal) : FittedPreprocessor :=
  { num_feats := create_preprocessor_num_feats,
    cat_feats := create_preprocessor_cat_feats,
    num_tf := num_tf,
    categories := categories }

/-- The model bundle `calculate_quote` consumes (`artifacts`): the fitted
preprocessor, the two opaque scorers applied to the preprocessed row
vector, and the calibration scalar. -/
structure Artifacts where
  preprocessor : FittedPreprocessor
  pd_model : List ℚ → ℚ
  lgd_model : List ℚ → ℚ
  calibration_factor : ℚ

/-- The record quoter.calculate_quote returns (its dict literal, fields
in source order). -/
structure Quote where
  approved_amount : ℚ
  nafin_guaranteed : ℚ
  pd : ℚ
  lgd : ℚ
  expected_loss : ℚ
  guarantee_fee : ℚ
  total_financed : ℚ
  monthly_payment : ℚ
  term_months : ℕ
  bank_rate : ℚ
  scian_code : String
  state : String
deriving DecidableEq, Repr

/-- The dict view of a Quote: exactly the key/value pairs of the dict
literal at the end of quoter.calculate_quote, in source order. -/
def quote_dict (q : Quote) : List (String × FeatVal) :=
  [("approved_amount", FeatVal.num q.approved_amount),
   ("nafin_guaranteed", FeatVal.num q.nafin_guaranteed),
   ("pd", FeatVal.num q.pd),
   ("lgd", FeatVal.num q.lgd),
   ("expected_loss", FeatVal.num q.expected_loss),
   ("guarantee_fee", FeatVal.num q.guarantee_fee),
   ("total_financed", FeatVal.num q.total_financed),
   ("monthly_payment", FeatVal.num q.monthly_payment),
   ("term_months", FeatVal.num (q.term_months : ℚ)),
   ("bank_rate", FeatVal.num q.bank_rate),
   ("scian_code", FeatVal.str q.scian_code),
   ("state", FeatVal.str q.state)]

/-- quoter.calculate_quote lines 110-117: the feature frame after the
HasRealEstate / InRecession columns are overwritten. -/
def quote_loan_df (log1p : ℚ → ℚ) (approved_amount : ℚ)
    (term_months num_employees : ℕ) (is_new_business : Bool)
    (scian_code state_code : String) (has_real_estate in_recession : Bool) :
    List (String × FeatVal) :=
  set_col
    (set_col
      (create_loan_features log1p approved_amount term_months num_employees
        is_new_business scian_code state_code)
      "HasRealEstate" (FeatVal.num (if has_real_estate then 1 else 0)))
    "InRecession" (FeatVal.num (if in_recession then 1 else 0))

/-- quoter.calculate_quote lines 133-135: raw fee EL*1.20, floored at
0.5% and capped at 5% of the guaranteed amount. -/
def guarantee_fee_calc (el_pred nafin_guaranteed : ℚ) : ℚ :=
  min (max (el_pred * (120 / 100)) (nafin_guaranteed * (5 / 1000)))
    (nafin_guaranteed * (5 / 100))

/-- A stand-in for the opaque `np.log1p` used in concrete evaluations. -/
def zero_log1p : ℚ → ℚ := fun _ => 0

/-- quoter.calculate_quote, with the loaded artifacts bundle and
`np.log1p` passed explicitly (model loading is file I/O outside this
core; the spec's ModelBundle).  Follows the source line by line:
features, column overwrites, preprocessing, the two scorer calls on the
same preprocessed vector, expected loss, fee floor/cap, amortized
payment, and the result record. -/
def calculate_quote (log1p : ℚ → ℚ) (artifacts : Artifacts)
    (approved_amount : ℚ) (term_months num_employees : ℕ)
    (is_new_business : Bool) (scian_code state_code : String)
    (bank_rate : ℚ) (has_real_estate in_recession : Bool) :
    Except PyError Quote :=
  let loan_df := quote_loan_df log1p approved_amount term_months num_employees
    is_new_business scian_code state_code has_real_estate in_recession
  match transform_data artifacts.preprocessor loan_df with
  | Except.error e => Except.error e
  | Except.ok x_processed =>
    let pd_pred := artifacts.pd_model x_processed
    let lgd_pred := artifacts.lgd_model x_processed
    let el_pred := pd_pred * lgd_pred * artifacts.calibration_factor
    let nafin_guaranteed := calculate_nafin_guarantee approved_amount
    let guarantee_fee := guarantee_fee_calc el_pred nafin_guaranteed
    let total_financed := approved_amount + guarantee_fee
    match calculate_monthly_payment total_financed bank_rate term_months with
    | Except.error e => Except.error e
    | Except.ok monthly_payment =>
      Except.ok
        { approved_amount := approved_amount,
          nafin_guaranteed := nafin_guaranteed,
          pd := pd_pred,
          lgd := lgd_pred,
          expected_loss := el_pred,
          guarantee_fee := guarantee_fee,
          total_financed := total_financed,
          monthly_payment := monthly_payment,
          term_months := term_months,
          bank_rate := bank_rate,
          scian_code := scian_code,
          state := state_code }

/-- A concrete fitted bundle for evaluations: a fitted preprocessor with
an empty column set (the fitted state is data, so this is a legal
instance) and constant scorers returning in-range values. -/
def demo_artifacts : Artifacts :=
  { preprocessor := { num_feats := [], cat_feats := [],
                      num_tf := fun _ q => q, categories := fun _ => [] },
    pd_model := fun _ => 1 / 100,
    lgd_model := fun _ => 100000,
    calibration_factor := 1 }

/-- A concrete fitted bundle whose scorers return out-of-range values:
a PD of 2 (outside [0,1]) and a negative LGD. -/
def bad_artifacts : Artifacts :=
  { preprocessor := { num_feats := [], cat_feats := [],
                      num_tf := fun _ q => q, categories := fun _ => [] },
    pd_model := fun _ => 2,
    lgd_model := fun _ => -5,
    calibration_factor := 1 }

/-- The quote record produced by `demo_artifacts` on a 500000 MXN loan,
36 months, rate 0. -/
def q500 : Quote :=
  { approved_amount := 500000, nafin_guaranteed := 400000, pd := 1 / 100,
    lgd := 100000, expected_loss := 1000, guarantee_fee := 2000,
    total_financed := 502000, monthly_payment := 125500 / 9,
    term_months := 36, bank_rate := 0, scian_code := "46", state := "JAL" }

/-! ## Helper lemmas -/

/-- The guaranteed amount is positive for a positive approved amount. -/
theorem calculate_nafin_guarantee_pos (a : ℚ) (h : 0 < a) :
    0 < calculate_nafin_guarantee a := by
  unfold calculate_nafin_guarantee
  split <;> nlinarith

/-- A value that is not a fitted category gets code -1, from any
starting position. -/
theorem ordinal_code_from_of_not_mem (cats : List FeatVal) (v : FeatVal)
    (k : ℚ) (h : v ∉ cats) : ordinal_code_from k cats v = -1 := by
  induction cats generalizing k with
  | nil => rfl
  | cons c rest ih =>
    rw [ordinal_code_from]
    rw [List.mem_cons] at h
    push_neg at h
    rw [if_neg h.1]
    exact ih (k + 1) h.2

/-- A fitted category's code is at least the starting position. -/
theorem ordinal_code_from_of_mem (cats : List FeatVal) (v : FeatVal)
    (k : ℚ) (h : v ∈ cats) : k ≤ ordinal_code_from k cats v := by
  induction cats generalizing k with
  | nil => cases h
  | cons c rest ih =>
    rw [ordinal_code_from]
    by_cases hv : v = c
    · rw [if_pos hv]
    · rw [if_neg hv]
      rw [List.mem_cons] at h
      rcases h with h | h
      · exact absurd h hv
      · calc k ≤ k + 1 := by linarith
          _ ≤ ordinal_code_from (k + 1) rest v := ih (k + 1) h

/-- Inversion of a successful calculate_quote: the preprocessed vector
and the payment exist, and every field of the result is determined by
the source's intermediate computations. -/
theorem calculate_quote_ok_inv (log1p : ℚ → ℚ) (artifacts : Artifacts)
    (a : ℚ) (t n : ℕ) (nb : Bool) (sc st : String) (r : ℚ) (hre rec : Bool)
    (q : Quote)
    (h : calculate_quote log1p artifacts a t n nb sc st r hre rec = Except.ok q) :
    ∃ x payment,
      transform_data artifacts.preprocessor
        (quote_loan_df log1p a t n nb sc st hre rec) = Except.ok x ∧
      calculate_monthly_payment
        (a + guarantee_fee_calc
          (artifacts.pd_model x * artifacts.lgd_model x * artifacts.calibration_factor)
          (calculate_nafin_guarantee a)) r t = Except.ok payment ∧
      q = { approved_amount := a,
            nafin_guaranteed := calculate_nafin_guarantee a,
            pd := artifacts.pd_model x,
            lgd := artifacts.lgd_model x,
            expected_loss :=
              artifacts.pd_model x * artifacts.lgd_model x * artifacts.calibration_factor,
            guarantee_fee := guarantee_fee_calc
              (artifacts.pd_model x * artifacts.lgd_model x * artifacts.calibration_factor)
              (calculate_nafin_guarantee a),
            total_financed := a + guarantee_fee_calc
              (artifacts.pd_model x * artifacts.lgd_model x * artifacts.calibration_factor)
              (calculate_nafin_guarantee a),
            monthly_payment := payment,
            term_months := t,
            bank_rate := r,
            scian_code := sc,
            state := st } := by
  simp only [calculate_quote] at h
  split at h
  · exact absurd h (by simp)
  · rename_i x heq
    split at h
    · exact absurd h (by simp)
    · rename_i payment heq2
      refine ⟨x, payment, heq, heq2, ?_⟩
      injection h with h
      exact h.symm

/-! ## Claim theorems -/

/-- C6: the guaranteed amount is amount * 0.80 when the approved amount
is at most 2,000,000, and amount * 0.70 above 2,000,000. -/
theorem c6_guarantee_tiers (a : ℚ) :
    (a ≤ 2000000 → calculate_nafin_guarantee a = a * (80 / 100)) ∧
    (2000000 < a → calculate_nafin_guarantee a = a * (70 / 100)) := by
  constructor
  · intro h
    rw [calculate_nafin_guarantee, if_pos h]
  · intro h
    rw [calculate_nafin_guarantee, if_neg (not_le.mpr h)]

/-- Witness for C6 at 100 (low tier) and 3,000,000 (high tier). -/
theorem c6_guarantee_tiers_witness :
    calculate_nafin_guarantee 100 = 80 ∧ calculate_nafin_guarantee 3000000 = 2100000 := by
  constructor
  · rw [(c6_guarantee_tiers 100).1 (by norm_num)]; norm_num
  · rw [(c6_guarantee_tiers 3000000).2 (by norm_num)]; norm_num

/-- C9: in the fitted categorical encoding, an unseen category maps to
the reserved unknown code -1 (totally, never raising), a fitted
category's code is nonnegative and so never collides with -1, and a
missing value maps to the reserved missing code -2, distinct from -1. -/
theorem c9_ordinal_encoder_reserved_codes (cats : List FeatVal) (v : FeatVal) :
    (v ≠ FeatVal.nan → v ∉ cats → encode_cat cats v = -1) ∧
    (v ≠ FeatVal.nan → v ∈ cats →
      0 ≤ encode_cat cats v ∧ encode_cat cats v ≠ -1) ∧
    encode_cat cats FeatVal.nan = -2 ∧ ((-2 : ℚ) ≠ -1) := by
  refine ⟨?_, ?_, ?_, by norm_num⟩
  · intro hnan hmem
    rw [encode_cat, if_neg hnan]
    exact ordinal_code_from_of_not_mem cats v 0 hmem
  · intro hnan hmem
    rw [encode_cat, if_neg hnan]
    have h0 := ordinal_code_from_of_mem cats v 0 hmem
    exact ⟨h0, by intro hc; rw [hc] at h0; norm_num at h0⟩
  · rw [encode_cat, if_pos rfl]

/-- Witness for C9 on a two-category fitted column: the unseen string
"XXX" encodes to -1, the fitted category "NL" to a nonnegative code,
and the missing value to -2. -/
theorem c9_ordinal_encoder_reserved_codes_witness :
    encode_cat [FeatVal.str "JAL", FeatVal.str "NL"] (FeatVal.str "XXX") = -1 ∧
    (0 ≤ encode_cat [FeatVal.str "JAL", FeatVal.str "NL"] (FeatVal.str "NL") ∧
      encode_cat [FeatVal.str "JAL", FeatVal.str "NL"] (FeatVal.str "NL") ≠ -1) ∧
    encode_cat [FeatVal.str "JAL", FeatVal.str "NL"] FeatVal.nan = -2 := by
  refine ⟨?_, ?_, ?_⟩
  · exact (c9_ordinal_encoder_reserved_codes [FeatVal.str "JAL", FeatVal.str "NL"]
      (FeatVal.str "XXX")).1 (by decide) (by decide)
  · exact (c9_ordinal_encoder_reserved_codes [FeatVal.str "JAL", FeatVal.str "NL"]
      (FeatVal.str "NL")).2.1 (by decide) (by decide)
  · exact (c9_ordinal_encoder_reserved_codes [FeatVal.str "JAL", FeatVal.str "NL"]
      FeatVal.nan).2.2.1

/-- C5 counterexample: at term_months = 0 (rate 0, the spec's own
boundary example amount) the payment computation hits a division by
zero — Python's ZeroDivisionError — not an InvalidInputError; no input
validation exists in the quoting code. -/
theorem c5_zero_term_divides_by_zero :
    calculate_monthly_payment 120000 0 0 = Except.error PyError.zeroDivisionError := by
  rfl

/-- C5 (amended): the quote computation performs no input validation.
With term_months = 0 the monthly-payment computation raises Python's
ZeroDivisionError for every principal and rate (there is no
InvalidInputError in the code), and with approved_amount = 0 no error
is raised at all: the guarded guarantee-portion division yields 0 and
the quote completes normally. -/
theorem c5_no_input_validation :
    (∀ p r : ℚ, calculate_monthly_payment p r 0 = Except.error PyError.zeroDivisionError) ∧
    calculate_quote zero_log1p demo_artifacts 0 12 5 false "46" "JAL" 0 false false =
      Except.ok
        { approved_amount := 0, nafin_guaranteed := 0, pd := 1 / 100, lgd := 100000,
          expected_loss := 1000, guarantee_fee := 0, total_financed := 0,
          monthly_payment := 0, term_months := 12, bank_rate := 0,
          scian_code := "46", state := "JAL" } := by
  constructor
  · intro p r
    rw [calculate_monthly_payment]
    by_cases h : r = 0
    · rw [if_pos h, if_pos rfl]
    · rw [if_neg h, if_pos (by rw [pow_zero]; ring)]
  · norm_num [calculate_quote, quote_loan_df, create_loan_features, set_col,
      transform_data, transform_num, demo_artifacts, zero_log1p,
      calculate_monthly_payment, calculate_nafin_guarantee, guarantee_fee_calc]

/-- C7: the monthly payment is the standard fixed-rate amortization of
the financed principal: at rate 0 it is principal / term; at a positive
rate r it is principal * m * (1+m)^term / ((1+m)^term - 1) with
m = (r/100)/12; and 120000 at 0% over 12 months pays exactly 10000. -/
theorem c7_amortized_payment :
    (∀ (principal : ℚ) (t : ℕ), 0 < t →
      calculate_monthly_payment principal 0 t = Except.ok (principal / (t : ℚ))) ∧
    (∀ (principal r : ℚ) (t : ℕ), 0 < r → 0 < t →
      calculate_monthly_payment principal r t =
        Except.ok (principal * (r / 100 / 12) * (1 + r / 100 / 12) ^ t /
          ((1 + r / 100 / 12) ^ t - 1))) ∧
    calculate_monthly_payment 120000 0 12 = Except.ok 10000 := by
  refine ⟨?_, ?_, ?_⟩
  · intro principal t ht
    rw [calculate_monthly_payment, if_pos rfl, if_neg (Nat.pos_iff_ne_zero.mp ht)]
  · intro principal r t hr ht
    have hm : (0 : ℚ) < r / 100 / 12 := by positivity
    have hpow : 1 < (1 + r / 100 / 12) ^ t :=
      one_lt_pow₀ (by linarith) (Nat.pos_iff_ne_zero.mp ht)
    have hden : (1 + r / 100 / 12) ^ t - 1 ≠ 0 := by linarith
    rw [calculate_monthly_payment, if_neg (ne_of_gt hr)]
    simp only [if_neg hden]
    congr 1
    ring
  · rw [calculate_monthly_payment, if_pos rfl, if_neg (by norm_num)]
    norm_num

/-- Witness for C7: the 0% branch at the spec's example, and the
positive-rate branch at 12% over 36 months (monthly rate 1/100). -/
theorem c7_amortized_payment_witness :
    calculate_monthly_payment 120000 0 12 = Except.ok ((120000 : ℚ) / (12 : ℕ)) ∧
    calculate_monthly_payment 1000000 12 36 =
      Except.ok (1000000 * ((12 : ℚ) / 100 / 12) * (1 + (12 : ℚ) / 100 / 12) ^ 36 /
        ((1 + (12 : ℚ) / 100 / 12) ^ 36 - 1)) := by
  constructor
  · exact c7_amortized_payment.1 120000 12 (by norm_num)
  · exact c7_amortized_payment.2.1 1000000 12 36 (by norm_num) (by norm_num)

/-- C1 (code evaluation): every record a successful quote computation
returns has exactly the twelve keys of the source's dict literal, and
in particular carries no risk-category field at all — neither the
`gps_category` key the web front end reads nor any other category
key — so no PD-threshold category is assigned. -/
theorem c1_quote_record_lacks_risk_category (log1p : ℚ → ℚ)
    (artifacts : Artifacts) (a : ℚ) (t n : ℕ) (nb : Bool) (sc st : String)
    (r : ℚ) (hre rec : Bool) (q : Quote)
    (h : calculate_quote log1p artifacts a t n nb sc st r hre rec = Except.ok q) :
    (quote_dict q).map Prod.fst =
      ["approved_amount", "nafin_guaranteed", "pd", "lgd", "expected_loss",
       "guarantee_fee", "total_financed", "monthly_payment", "term_months",
       "bank_rate", "scian_code", "state"] ∧
    "gps_category" ∉ (quote_dict q).map Prod.fst ∧
    "action" ∉ (quote_dict q).map Prod.fst := by
  refine ⟨rfl, ?_, ?_⟩ <;> simp [quote_dict]

/-- Witness for C1: a concrete successful quote whose record has the
twelve keys and no category key. -/
theorem c1_quote_record_lacks_risk_category_witness :
    calculate_quote zero_log1p demo_artifacts 500000 36 12 false "46" "JAL" 0 false false =
      Except.ok q500 ∧
    ((quote_dict q500).map Prod.fst =
      ["approved_amount", "nafin_guaranteed", "pd", "lgd", "expected_loss",
       "guarantee_fee", "total_financed", "monthly_payment", "term_months",
       "bank_rate", "scian_code", "state"] ∧
    "gps_category" ∉ (quote_dict q500).map Prod.fst ∧
    "action" ∉ (quote_dict q500).map Prod.fst) := by
  have hq : calculate_quote zero_log1p demo_artifacts 500000 36 12 false "46" "JAL"
      0 false false = Except.ok q500 := by
    norm_num [calculate_quote, quote_loan_df, create_loan_features, set_col,
      transform_data, transform_num, demo_artifacts, zero_log1p, q500,
      calculate_monthly_payment, calculate_nafin_guarantee, guarantee_fee_calc]
  exact ⟨hq, c1_quote_record_lacks_risk_category zero_log1p demo_artifacts
    500000 36 12 false "46" "JAL" 0 false false q500 hq⟩

/-- C2: for every valid request (approved amount > 0), the fee of a
successful quote is clamp(EL * 1.20, guaranteed*0.005, guaranteed*0.05)
with EL = pd * lgd * calibration, and therefore lies in
[guaranteed*0.005, guaranteed*0.05] inclusive no matter what EL is. -/
theorem c2_fee_clamped (log1p : ℚ → ℚ) (artifacts : Artifacts)
    (a : ℚ) (t n : ℕ) (nb : Bool) (sc st : String) (r : ℚ) (hre rec : Bool)
    (q : Quote) (hpos : 0 < a)
    (h : calculate_quote log1p artifacts a t n nb sc st r hre rec = Except.ok q) :
    q.guarantee_fee =
      min (max (q.pd * q.lgd * artifacts.calibration_factor * (120 / 100))
        (q.nafin_guaranteed * (5 / 1000))) (q.nafin_guaranteed * (5 / 100)) ∧
    q.nafin_guaranteed * (5 / 1000) ≤ q.guarantee_fee ∧
    q.guarantee_fee ≤ q.nafin_guaranteed * (5 / 100) := by
  obtain ⟨x, payment, hx, hp, hq⟩ := calculate_quote_ok_inv log1p artifacts
    a t n nb sc st r hre rec q h
  subst hq
  have hn : 0 < calculate_nafin_guarantee a := calculate_nafin_guarantee_pos a hpos
  refine ⟨rfl, ?_, ?_⟩
  · simp only [guarantee_fee_calc]
    refine le_min (le_max_right _ _) ?_
    nlinarith
  · exact min_le_right _ _

/-- Witness for C2 at a concrete successful quote: amount 500000 is
positive and the fee 2000 equals the clamp and sits inside
[2000, 20000]. -/
theorem c2_fee_clamped_witness :
    (0 : ℚ) < 500000 ∧
    (q500.guarantee_fee =
      min (max (q500.pd * q500.lgd * demo_artifacts.calibration_factor * (120 / 100))
        (q500.nafin_guaranteed * (5 / 1000))) (q500.nafin_guaranteed * (5 / 100)) ∧
    q500.nafin_guaranteed * (5 / 1000) ≤ q500.guarantee_fee ∧
    q500.guarantee_fee ≤ q500.nafin_guaranteed * (5 / 100)) := by
  have hq : calculate_quote zero_log1p demo_artifacts 500000 36 12 false "46" "JAL"
      0 false false = Except.ok q500 := by
    norm_num [calculate_quote, quote_loan_df, create_loan_features, set_col,
      transform_data, transform_num, demo_artifacts, zero_log1p, q500,
      calculate_monthly_payment, calculate_nafin_guarantee, guarantee_fee_calc]
  exact ⟨by norm_num, c2_fee_clamped zero_log1p demo_artifacts 500000 36 12 false
    "46" "JAL" 0 false false q500 (by norm_num) hq⟩

/-- C8 counterexample: a quote request whose PD scorer returns 2
(outside [0,1]) and whose LGD scorer returns -5 (negative) completes
with a normal quote — no error of any kind is raised, so no
ModelOutputError range validation exists. -/
theorem c8_out_of_range_scores_accepted :
    calculate_quote zero_log1p bad_artifacts 100000 12 5 false "46" "JAL" 0 false false =
      Except.ok
        { approved_amount := 100000, nafin_guaranteed := 80000, pd := 2, lgd := -5,
          expected_loss := -10, guarantee_fee := 400, total_financed := 100400,
          monthly_payment := 25100 / 3, term_months := 12, bank_rate := 0,
          scian_code := "46", state := "JAL" } := by
  norm_num [calculate_quote, quote_loan_df, create_loan_features, set_col,
    transform_data, transform_num, bad_artifacts, zero_log1p,
    calculate_monthly_payment, calculate_nafin_guarantee, guarantee_fee_calc]

/-- C8 (amended): both scorers are applied to the identical preprocessed
vector and their raw outputs are copied into the quote unvalidated —
whatever values they return (in range or not), the engine performs no
range check and no further adapter logic beyond EL = pd * lgd *
calibration. -/
theorem c8_scorers_unvalidated_pass_through (log1p : ℚ → ℚ)
    (artifacts : Artifacts) (a : ℚ) (t n : ℕ) (nb : Bool) (sc st : String)
    (r : ℚ) (hre rec : Bool) (x : List ℚ) (q : Quote)
    (hx : transform_data artifacts.preprocessor
      (quote_loan_df log1p a t n nb sc st hre rec) = Except.ok x)
    (h : calculate_quote log1p artifacts a t n nb sc st r hre rec = Except.ok q) :
    q.pd = artifacts.pd_model x ∧
    q.lgd = artifacts.lgd_model x ∧
    q.expected_loss =
      artifacts.pd_model x * artifacts.lgd_model x * artifacts.calibration_factor := by
  obtain ⟨x', payment, hx', hp, hq⟩ := calculate_quote_ok_inv log1p artifacts
    a t n nb sc st r hre rec q h
  rw [hx] at hx'
  injection hx' with hx'
  subst hx'
  subst hq
  exact ⟨rfl, rfl, rfl⟩

/-- Witness for C8 (amended): on the out-of-range bundle the quote's pd,
lgd and expected loss are exactly the scorers' raw outputs 2, -5 and
their calibrated product. -/
theorem c8_scorers_unvalidated_pass_through_witness :
    transform_data bad_artifacts.preprocessor
      (quote_loan_df zero_log1p 100000 12 5 false "46" "JAL" false false) =
      Except.ok [] ∧
    ({ approved_amount := 100000, nafin_guaranteed := 80000, pd := 2, lgd := -5,
       expected_loss := -10, guarantee_fee := 400, total_financed := 100400,
       monthly_payment := 25100 / 3, term_months := 12, bank_rate := 0,
       scian_code := "46", state := "JAL" : Quote }.pd = bad_artifacts.pd_model [] ∧
     { approved_amount := 100000, nafin_guaranteed := 80000, pd := 2, lgd := -5,
       expected_loss := -10, guarantee_fee := 400, total_financed := 100400,
       monthly_payment := 25100 / 3, term_months := 12, bank_rate := 0,
       scian_code := "46", state := "JAL" : Quote }.lgd = bad_artifacts.lgd_model [] ∧
     { approved_amount := 100000, nafin_guaranteed := 80000, pd := 2, lgd := -5,
       expected_loss := -10, guarantee_fee := 400, total_financed := 100400,
       monthly_payment := 25100 / 3, term_months := 12, bank_rate := 0,
       scian_code := "46", state := "JAL" : Quote }.expected_loss =
       bad_artifacts.pd_model [] * bad_artifacts.lgd_model [] *
         bad_artifacts.calibration_factor) := by
  have hx : transform_data bad_artifacts.preprocessor
      (quote_loan_df zero_log1p 100000 12 5 false "46" "JAL" false false) =
      Except.ok [] := by
    norm_num [transform_data, transform_num, bad_artifacts, quote_loan_df,
      create_loan_features, set_col, zero_log1p]
  have hq : calculate_quote zero_log1p bad_artifacts 100000 12 5 false "46" "JAL"
      0 false false = Except.ok
        { approved_amount := 100000, nafin_guaranteed := 80000, pd := 2, lgd := -5,
          expected_loss := -10, guarantee_fee := 400, total_financed := 100400,
          monthly_payment := 25100 / 3, term_months := 12, bank_rate := 0,
          scian_code := "46", state := "JAL" } := by
    norm_num [calculate_quote, quote_loan_df, create_loan_features, set_col,
      transform_data, transform_num, bad_artifacts, zero_log1p,
      calculate_monthly_payment, calculate_nafin_guarantee, guarantee_fee_calc]
  exact ⟨hx, c8_scorers_unvalidated_pass_through zero_log1p bad_artifacts 100000 12 5
    false "46" "JAL" 0 false false [] _ hx hq⟩

/-- C3: applying a fitted transform to a record that lacks one of the
transform's required columns fails with the missing-column error (the
spec's SchemaError) — the absent feature is reported among the missing
columns and no numeric vector is produced, so no replacement value is
ever inferred. -/
theorem c3_missing_feature_is_schema_error (pre : FittedPreprocessor)
    (X : List (String × FeatVal)) (c : String)
    (hc : c ∈ pre.num_feats ++ pre.cat_feats) (hmiss : X.lookup c = none) :
    ∃ missing, transform_data pre X = Except.error (PyError.schemaError missing) ∧
      c ∈ missing := by
  refine ⟨(pre.num_feats ++ pre.cat_feats).filter (fun c => (X.lookup c).isNone),
    ?_, List.mem_filter.mpr ⟨hc, by simp [hmiss]⟩⟩
  have hne : (pre.num_feats ++ pre.cat_feats).filter
      (fun c => (X.lookup c).isNone) ≠ [] :=
    List.ne_nil_of_mem (List.mem_filter.mpr ⟨hc, by simp [hmiss]⟩)
  rw [transform_data]
  simp only [List.isEmpty_eq_true] at *
  rw [if_neg hne]

/-- Witness for C3: the preprocessor of features.create_preprocessor
requires the column Loan_per_Emp, which the inference-time feature
record does not contain, so transforming that record fails with the
missing-column error. -/
theorem c3_missing_feature_is_schema_error_witness :
    ("Loan_per_Emp" ∈ (create_preprocessor_fitted (fun _ q => q) (fun _ => [])).num_feats ++
      (create_preprocessor_fitted (fun _ q => q) (fun _ => [])).cat_feats) ∧
    ((create_loan_features zero_log1p 500000 36 12 false "46" "JAL").lookup
      "Loan_per_Emp" = none) ∧
    (∃ missing, transform_data (create_preprocessor_fitted (fun _ q => q) (fun _ => []))
        (create_loan_features zero_log1p 500000 36 12 false "46" "JAL") =
        Except.error (PyError.schemaError missing) ∧ "Loan_per_Emp" ∈ missing) := by
  have hc : "Loan_per_Emp" ∈ (create_preprocessor_fitted (fun _ q => q)
      (fun _ => [])).num_feats ++ (create_preprocessor_fitted (fun _ q => q)
      (fun _ => [])).cat_feats := by
    simp [create_preprocessor_fitted, create_preprocessor_num_feats,
      create_preprocessor_cat_feats]
  have hmiss : (create_loan_features zero_log1p 500000 36 12 false "46" "JAL").lookup
      "Loan_per_Emp" = none := by
    decide
  exact ⟨hc, hmiss, c3_missing_feature_is_schema_error
    (create_preprocessor_fitted (fun _ q => q) (fun _ => []))
    (create_loan_features zero_log1p 500000 36 12 false "46" "JAL")
    "Loan_per_Emp" hc hmiss⟩

/-- C4: the inference-time feature record has exactly the sixteen keys
of create_loan_features, and each of the nine columns named in the
claim is required by the preprocessor of create_preprocessor yet absent
from that key set. -/
theorem c4_feature_keys_vs_preprocessor_columns :
    (∀ (log1p : ℚ → ℚ) (a : ℚ) (t n : ℕ) (nb : Bool) (sc st : String),
      (create_loan_features log1p a t n nb sc st).map Prod.fst =
        ["GrAppv", "NAFIN_Appv", "Term", "NoEmp", "IsNewBusiness", "NewExist",
         "SCIAN", "State", "NAFIN_Portion", "Loan_per_Employee", "Term_Years",
         "Debt_to_NAFIN", "Log_GrAppv", "HasRealEstate", "InRecession", "IsUrban"]) ∧
    (∀ c, c ∈ ["Loan_per_Emp", "Log_Loan_per_Emp", "RealEstate_Exposure",
        "Bank_Exposure", "Bank_Exposure_Ratio", "Loan_Age", "Bank_Frequency",
        "Bank_Frequency_Log", "Region"] →
      c ∈ create_preprocessor_num_feats ++ create_preprocessor_cat_feats ∧
      c ∉ ["GrAppv", "NAFIN_Appv", "Term", "NoEmp", "IsNewBusiness", "NewExist",
           "SCIAN", "State", "NAFIN_Portion", "Loan_per_Employee", "Term_Years",
           "Debt_to_NAFIN", "Log_GrAppv", "HasRealEstate", "InRecession", "IsUrban"]) := by
  constructor
  · intro log1p a t n nb sc st
    rfl
  · decide

/-- Witness for C4 at the column Region: required by the preprocessor,
absent from the feature record's keys. -/
theorem c4_feature_keys_vs_preprocessor_columns_witness :
    ("Region" ∈ ["Loan_per_Emp", "Log_Loan_per_Emp", "RealEstate_Exposure",
        "Bank_Exposure", "Bank_Exposure_Ratio", "Loan_Age", "Bank_Frequency",
        "Bank_Frequency_Log", "Region"]) ∧
    ("Region" ∈ create_preprocessor_num_feats ++ create_preprocessor_cat_feats ∧
     "Region" ∉ ["GrAppv", "NAFIN_Appv", "Term", "NoEmp", "IsNewBusiness", "NewExist",
          "SCIAN", "State", "NAFIN_Portion", "Loan_per_Employee", "Term_Years",
          "Debt_to_NAFIN", "Log_GrAppv", "HasRealEstate", "InRecession", "IsUrban"]) :=
  ⟨by decide, c4_feature_keys_vs_preprocessor_columns.2 "Region" (by decide)⟩

/-- C10: the quoting pipeline is deterministic — identical loan requests
against the same bundle produce identical quotes, and applying the same
fitted transform twice to the same feature record yields identical
numeric vectors. -/
theorem c10_pipeline_deterministic :
    (∀ (log1p : ℚ → ℚ) (artifacts : Artifacts) (a a' : ℚ) (t t' n n' : ℕ)
        (nb nb' : Bool) (sc sc' st st' : String) (r r' : ℚ)
        (hre hre' rec rec' : Bool),
      a = a' → t = t' → n = n' → nb = nb' → sc = sc' → st = st' → r = r' →
      hre = hre' → rec = rec' →
      calculate_quote log1p artifacts a t n nb sc st r hre rec =
        calculate_quote log1p artifacts a' t' n' nb' sc' st' r' hre' rec') ∧
    (∀ (pre : FittedPreprocessor) (X X' : List (String × FeatVal)), X = X' →
      transform_data pre X = transform_data pre X') := by
  constructor
  · intro log1p artifacts a a' t t' n n' nb nb' sc sc' st st' r r' hre hre' rec rec'
      h1 h2 h3 h4 h5 h6 h7 h8 h9
    subst h1; subst h2; subst h3; subst h4; subst h5; subst h6; subst h7
    subst h8; subst h9
    rfl
  · intro pre X X' hX
    rw [hX]

/-- Witness for C10 at a concrete request and record. -/
theorem c10_pipeline_deterministic_witness :
    calculate_quote zero_log1p demo_artifacts 500000 36 12 false "46" "JAL" 0 false false =
      calculate_quote zero_log1p demo_artifacts 500000 36 12 false "46" "JAL" 0 false false ∧
    transform_data demo_artifacts.preprocessor [("State", FeatVal.str "JAL")] =
      transform_data demo_artifacts.preprocessor [("State", FeatVal.str "JAL")] :=
  ⟨c10_pipeline_deterministic.1 zero_log1p demo_artifacts 500000 500000 36 36 12 12
      false false "46" "46" "JAL" "JAL" 0 0 false false false false
      rfl rfl rfl rfl rfl rfl rfl rfl rfl,
    c10_pipeline_deterministic.2 demo_artifacts.preprocessor
      [("State", FeatVal.str "JAL")] [("State", FeatVal.str "JAL")] rfl⟩
